import Mathlib

/-!
Verification of the moltbot secure agent core (`src/secure/agent.ts`).

The file embeds the two components of the source module:
* the conversation history store (`createConversationStore`): an in-memory
  map from numeric user ids to message lists, capped at `MAX_HISTORY = 20`
  entries per user (append, then trim from the front);
* the provider adapter (`createAnthropicAgent` / `createOpenAIAgent` /
  `createAgent`): request construction (model and system-prompt fallbacks
  via JavaScript truthiness), response normalization into `AgentResponse`,
  and the error path (one audit event, then the original error re-thrown).

Definitions are translated directly from the TypeScript source; theorems
state the specified properties over them.
-/

namespace Moltbot

/-- Message role, `"user" | "assistant"` in the source. -/
inductive Role where
  | user
  | assistant
deriving DecidableEq, Repr

/-- `Message = {role, content}` from `agent.ts`. -/
structure Message where
  role : Role
  content : String
deriving DecidableEq, Repr

/-! ## Conversation store (`createConversationStore`) -/

/-- `const MAX_HISTORY = 20;` -/
def MAX_HISTORY : Nat := 20

/-- The internal `Map<number, Message[]>`: absent keys are `none`. -/
def StoreMap : Type := Nat → Option (List Message)

/-- The store created by `createConversationStore()`: an empty map. -/
def emptyStore : StoreMap := fun _ => none

/-- `get(userId)`: `conversations.get(userId) || []`. -/
def storeGet (s : StoreMap) (userId : Nat) : List Message :=
  (s userId).getD []

/-- `add(userId, message)`: fetch the history (or `[]`), push the message,
and if the length exceeds `MAX_HISTORY` splice off the first
`length - MAX_HISTORY` elements, then store the result. -/
def storeAdd (s : StoreMap) (userId : Nat) (message : Message) : StoreMap :=
  fun v =>
    if v = userId then
      let history := (s userId).getD [] ++ [message]
      some (if MAX_HISTORY < history.length then
              history.drop (history.length - MAX_HISTORY)
            else history)
    else s v

/-- `clear(userId)`: `conversations.delete(userId)`. -/
def storeClear (s : StoreMap) (userId : Nat) : StoreMap :=
  fun v => if v = userId then none else s v

/-- Run a whole sequence of `add` calls for one user id, in order. -/
def addAll (s : StoreMap) (userId : Nat) (ms : List Message) : StoreMap :=
  ms.foldl (fun t m => storeAdd t userId m) s

/-- Specification-side description of a bounded history: the last `n`
elements of `l`, in order. -/
def lastWindow (n : Nat) (l : List Message) : List Message :=
  l.drop (l.length - n)

lemma lastWindow_of_le {n : Nat} {l : List Message} (h : l.length ≤ n) :
    lastWindow n l = l := by
  unfold lastWindow
  rw [Nat.sub_eq_zero_of_le h, List.drop_zero]

lemma length_lastWindow (n : Nat) (l : List Message) :
    (lastWindow n l).length = min l.length n := by
  unfold lastWindow
  rw [List.length_drop]
  omega

lemma length_lastWindow_le (n : Nat) (l : List Message) :
    (lastWindow n l).length ≤ n := by
  rw [length_lastWindow]
  omega

/-- Trimming to the last `n`, appending, and trimming again is the same as
appending and trimming once. -/
lemma lastWindow_append_absorb (n : Nat) (l ms : List Message) :
    lastWindow n (lastWindow n l ++ ms) = lastWindow n (l ++ ms) := by
  unfold lastWindow
  rw [← List.drop_append_of_le_length (by omega : l.length - n ≤ l.length)]
  rw [List.drop_drop]
  congr 1
  simp only [List.length_drop, List.length_append]
  omega

/-- A single `add` stores exactly the last `MAX_HISTORY` elements of the
old history with the new message appended. -/
lemma storeAdd_get_self (s : StoreMap) (u : Nat) (m : Message) :
    storeGet (storeAdd s u m) u =
      lastWindow MAX_HISTORY (storeGet s u ++ [m]) := by
  unfold storeGet storeAdd lastWindow
  rw [if_pos rfl]
  simp only [Option.getD_some]
  by_cases h : MAX_HISTORY < ((s u).getD [] ++ [m]).length
  · rw [if_pos h]
  · rw [if_neg h, Nat.sub_eq_zero_of_le (Nat.le_of_not_lt h), List.drop_zero]

/-- After a sequence of `add` calls the stored history is the last
`MAX_HISTORY` elements of old history plus the added messages, provided the
old history is within the cap. -/
lemma addAll_get_self (u : Nat) :
    ∀ (ms : List Message) (s : StoreMap),
      (storeGet s u).length ≤ MAX_HISTORY →
      storeGet (addAll s u ms) u = lastWindow MAX_HISTORY (storeGet s u ++ ms)
  | [], s, h => by
      simp only [addAll, List.foldl_nil, List.append_nil]
      exact (lastWindow_of_le h).symm
  | m :: ms, s, h => by
      have step := storeAdd_get_self s u m
      have hlen : (storeGet (storeAdd s u m) u).length ≤ MAX_HISTORY := by
        rw [step]; exact length_lastWindow_le _ _
      have ih := addAll_get_self u ms (storeAdd s u m) hlen
      calc storeGet (addAll s u (m :: ms)) u
          = storeGet (addAll (storeAdd s u m) u ms) u := rfl
        _ = lastWindow MAX_HISTORY (storeGet (storeAdd s u m) u ++ ms) := ih
        _ = lastWindow MAX_HISTORY
              (lastWindow MAX_HISTORY (storeGet s u ++ [m]) ++ ms) := by rw [step]
        _ = lastWindow MAX_HISTORY ((storeGet s u ++ [m]) ++ ms) :=
              lastWindow_append_absorb _ _ _
        _ = lastWindow MAX_HISTORY (storeGet s u ++ (m :: ms)) := by
              rw [List.append_assoc, List.singleton_append]

/-- C1: For every user id and every sequence of `add` calls for that id
starting from the fresh store (no intervening `clear`), the stored sequence
for that id equals the last 20 messages added, in insertion order (oldest
evicted first), and its length is `min (number of adds, 20)`. "After each
add" is obtained by instantiating `ms` with each prefix of the call
sequence. -/
theorem conversation_store_keeps_last_twenty (u : Nat) (ms : List Message) :
    storeGet (addAll emptyStore u ms) u = lastWindow MAX_HISTORY ms ∧
    (storeGet (addAll emptyStore u ms) u).length = min ms.length MAX_HISTORY := by
  have hempty : storeGet emptyStore u = [] := rfl
  have h := addAll_get_self u ms emptyStore (by rw [hempty]; exact Nat.zero_le _)
  rw [hempty, List.nil_append] at h
  exact ⟨h, by rw [h, length_lastWindow]⟩

/-- C6: `get` on an id with no prior `add` returns the empty sequence, and
`clear` followed by `get` for that id returns the empty sequence no matter
what the store held for that id before the `clear`. -/
theorem get_unknown_and_after_clear_empty (s : StoreMap) (u : Nat) :
    storeGet emptyStore u = [] ∧ storeGet (storeClear s u) u = [] := by
  constructor
  · rfl
  · unfold storeGet storeClear
    rw [if_pos rfl]
    rfl

/-- C9: mutations (`add`, `clear`) for one user id never change the
sequence `get` returns for a different user id. -/
theorem store_mutations_preserve_other_users
    (s : StoreMap) (u v : Nat) (m : Message) (h : u ≠ v) :
    storeGet (storeAdd s u m) v = storeGet s v ∧
    storeGet (storeClear s u) v = storeGet s v := by
  constructor
  · unfold storeGet storeAdd
    rw [if_neg (fun hv => h hv.symm)]
  · unfold storeGet storeClear
    rw [if_neg (fun hv => h hv.symm)]

/-- Witness for C9 at concrete distinct ids 0 and 1. -/
theorem store_mutations_preserve_other_users_witness :
    storeGet (storeAdd emptyStore 0 ⟨Role.user, "hi"⟩) 1 = storeGet emptyStore 1 ∧
    storeGet (storeClear emptyStore 0) 1 = storeGet emptyStore 1 :=
  store_mutations_preserve_other_users emptyStore 0 1 ⟨Role.user, "hi"⟩
    (by decide)

/-! ## Provider adapter (`createAnthropicAgent`, `createOpenAIAgent`, `createAgent`) -/

/-- `config.ai` from `SecureConfig`: `{provider, apiKey, model?}`. -/
structure AIConfig where
  provider : String
  apiKey : String
  model : Option String
deriving DecidableEq, Repr

/-- The configuration consumed by `createAgent`. -/
structure SecureConfig where
  ai : AIConfig
deriving DecidableEq, Repr

def DEFAULT_ANTHROPIC_MODEL : String := "claude-sonnet-4-20250514"

def DEFAULT_OPENAI_MODEL : String := "gpt-4o"

def DEFAULT_SYSTEM_PROMPT : String :=
  "You are a helpful AI assistant running as a secure, self-hosted bot.\n\nYou are direct, concise, and helpful. You can:\n- Answer questions and have conversations\n- Analyze images and documents shared with you\n- Help with coding and technical tasks\n- Summarize content and extract information\n\nWhen you receive webhook notifications, summarize them helpfully for the user.\n\nBe security-conscious:\n- Never reveal API keys, tokens, or secrets\n- Do not execute commands that could harm the system\n- Warn users about potentially dangerous operations"

/-- JavaScript `value || fallback` on an optional string: `undefined` and
the empty string are falsy, so both select the fallback. -/
def jsOrString (value : Option String) (fallback : String) : String :=
  match value with
  | some s => if s = "" then fallback else s
  | none => fallback

def roleString : Role → String
  | Role.user => "user"
  | Role.assistant => "assistant"

/-- The request `client.messages.create({...})` is called with on the
Anthropic path: model fallback `config.ai.model || DEFAULT_ANTHROPIC_MODEL`,
`max_tokens: 4096`, `system: systemPrompt || DEFAULT_SYSTEM_PROMPT`, and the
messages copied as `{role, content}` pairs. -/
structure AnthropicRequest where
  model : String
  max_tokens : Nat
  system : String
  messages : List (String × String)
deriving DecidableEq, Repr

def anthropicRequest (config : SecureConfig) (messages : List Message)
    (systemPrompt : Option String) : AnthropicRequest :=
  { model := jsOrString config.ai.model DEFAULT_ANTHROPIC_MODEL
    max_tokens := 4096
    system := jsOrString systemPrompt DEFAULT_SYSTEM_PROMPT
    messages := messages.map (fun m => (roleString m.role, m.content)) }

/-- The request `client.chat.completions.create({...})` is called with on
the OpenAI path: model fallback `config.ai.model || DEFAULT_OPENAI_MODEL`,
`max_tokens: 4096`, and a synthesized leading system message followed by
the caller's messages. -/
structure OpenAIRequest where
  model : String
  max_tokens : Nat
  messages : List (String × String)
deriving DecidableEq, Repr

def openAIRequest (config : SecureConfig) (messages : List Message)
    (systemPrompt : Option String) : OpenAIRequest :=
  { model := jsOrString config.ai.model DEFAULT_OPENAI_MODEL
    max_tokens := 4096
    messages := ("system", jsOrString systemPrompt DEFAULT_SYSTEM_PROMPT) ::
      messages.map (fun m => (roleString m.role, m.content)) }

/-- A content block of an Anthropic response. The source only discriminates
on `block.type === "text"`; `toolUse` and `thinking` stand for the non-text
block kinds. -/
inductive ContentBlock where
  | text (t : String)
  | toolUse (id name input : String)
  | thinking (t : String)
deriving DecidableEq, Repr

/-- The type guard `block.type === "text"`. -/
def blockIsText : ContentBlock → Bool
  | ContentBlock.text _ => true
  | _ => false

/-- `block.text`; only ever applied after the `blockIsText` filter, so the
value on non-text blocks is irrelevant. -/
def blockText : ContentBlock → String
  | ContentBlock.text t => t
  | _ => ""

structure AnthropicUsage where
  input_tokens : Nat
  output_tokens : Nat
deriving DecidableEq, Repr

/-- The shape of an Anthropic messages-API response that the code reads:
`response.content` and `response.usage`. -/
structure AnthropicResponse where
  content : List ContentBlock
  usage : AnthropicUsage
deriving DecidableEq, Repr

/-- `choices[i].message.content : string | null` in the OpenAI SDK. -/
structure OpenAIChatMessage where
  content : Option String
deriving DecidableEq, Repr

/-- A completion choice; the code reads `choices[0]?.message?.content`. -/
structure OpenAIChoice where
  message : Option OpenAIChatMessage
deriving DecidableEq, Repr

structure OpenAIUsage where
  prompt_tokens : Nat
  completion_tokens : Nat
deriving DecidableEq, Repr

/-- The shape of an OpenAI chat-completions response that the code reads:
`response.choices` and the optional `response.usage`. -/
structure OpenAIResponse where
  choices : List OpenAIChoice
  usage : Option OpenAIUsage
deriving DecidableEq, Repr

structure AgentUsage where
  inputTokens : Nat
  outputTokens : Nat
deriving DecidableEq, Repr

/-- `AgentResponse = {text, usage?}` returned by `chat`. -/
structure AgentResponse where
  text : String
  usage : Option AgentUsage
deriving DecidableEq, Repr

/-- A JavaScript thrown value: either an `Error` object (from which
`err.message` is read) or any other value (stringified by `String(err)`). -/
inductive JsError where
  | errorObject (message : String)
  | nonErrorValue (stringValue : String)
deriving DecidableEq, Repr

/-- `err instanceof Error ? err.message : String(err)`. -/
def jsErrorText : JsError → String
  | JsError.errorObject m => m
  | JsError.nonErrorValue s => s

/-- An `audit.error({error: ...})` record. -/
structure AuditEvent where
  error : String
deriving DecidableEq, Repr

/-- The Anthropic `chat` body after the provider call has settled: on
success, normalize the response (text blocks joined by newline, usage
copied); on failure, emit one audit event and re-throw the original error.
The first component collects the audit events written during the call. -/
def anthropicChat (result : Except JsError AnthropicResponse) :
    List AuditEvent × Except JsError AgentResponse :=
  match result with
  | Except.ok response =>
      ([],
       Except.ok
        { text := String.intercalate "\n"
            ((response.content.filter blockIsText).map blockText)
          usage := some
            { inputTokens := response.usage.input_tokens
              outputTokens := response.usage.output_tokens } })
  | Except.error err =>
      ([{ error := "Anthropic API error: " ++ jsErrorText err }],
       Except.error err)

/-- The OpenAI `chat` body after the provider call has settled: on success,
text is `choices[0]?.message?.content || ""` and usage is copied only when
the response carries a usage object; on failure, one audit event and the
original error re-thrown. -/
def openAIChat (result : Except JsError OpenAIResponse) :
    List AuditEvent × Except JsError AgentResponse :=
  match result with
  | Except.ok response =>
      ([],
       Except.ok
        { text := jsOrString
            ((response.choices.head?.bind OpenAIChoice.message).bind
              OpenAIChatMessage.content) ""
          usage :=
            match response.usage with
            | some u => some
                { inputTokens := u.prompt_tokens
                  outputTokens := u.completion_tokens }
            | none => none })
  | Except.error err =>
      ([{ error := "OpenAI API error: " ++ jsErrorText err }],
       Except.error err)

/-- Which concrete agent `createAgent` builds. -/
inductive ProviderPath where
  | anthropic
  | openai
deriving DecidableEq, Repr

/-- `createAgent`: `if (config.ai.provider === "anthropic") ... else ...`.
Total — no configuration value is rejected. -/
def createAgentPath (config : SecureConfig) : ProviderPath :=
  if config.ai.provider = "anthropic" then ProviderPath.anthropic
  else ProviderPath.openai

/-- The `provider` tag carried by each concrete agent. -/
def providerTag : ProviderPath → String
  | ProviderPath.anthropic => "anthropic"
  | ProviderPath.openai => "openai"

/-- C5: `createAgent` selects the Anthropic path exactly when
`config.ai.provider = "anthropic"`; every other value (including
unrecognized strings) selects the OpenAI path with tag `"openai"`, and the
selection is total, so no configuration error is raised. -/
theorem create_agent_provider_branch (config : SecureConfig) :
    (createAgentPath config = ProviderPath.anthropic ↔
      config.ai.provider = "anthropic") ∧
    (createAgentPath config = ProviderPath.openai ↔
      config.ai.provider ≠ "anthropic") ∧
    providerTag (createAgentPath config) =
      (if config.ai.provider = "anthropic" then "anthropic" else "openai") := by
  unfold createAgentPath providerTag
  by_cases h : config.ai.provider = "anthropic"
  · rw [if_pos h, if_pos h]
    refine ⟨⟨fun _ => h, fun _ => rfl⟩, ⟨fun hc => ?_, fun hc => absurd h hc⟩, rfl⟩
    exact absurd hc (by decide)
  · rw [if_neg h, if_neg h]
    refine ⟨⟨fun hc => ?_, fun hc => absurd hc h⟩, ⟨fun _ => h, fun _ => rfl⟩, rfl⟩
    exact absurd hc (by decide)

/-- C8: on both provider paths a successful `chat` call writes no audit
event of any kind: the audit trace of a successful call is empty. -/
theorem no_audit_event_on_success :
    (∀ r : AnthropicResponse, (anthropicChat (Except.ok r)).1 = []) ∧
    (∀ r : OpenAIResponse, (openAIChat (Except.ok r)).1 = []) :=
  ⟨fun _ => rfl, fun _ => rfl⟩

/-- Counterexample to C7 as stated: the empty string is a supplied model
value (`config.ai.model = some ""`), yet the outbound request carries the
per-provider default model, not the supplied value. -/
theorem supplied_empty_model_not_used :
    (anthropicRequest
        { ai := { provider := "anthropic", apiKey := "k", model := some "" } }
        [] none).model = DEFAULT_ANTHROPIC_MODEL ∧
    (openAIRequest
        { ai := { provider := "openai", apiKey := "k", model := some "" } }
        [] none).model = DEFAULT_OPENAI_MODEL ∧
    DEFAULT_ANTHROPIC_MODEL ≠ "" ∧ DEFAULT_OPENAI_MODEL ≠ "" :=
  ⟨rfl, rfl, by decide, by decide⟩

/-- C7 (amended): if `config.ai.model` is absent — or supplied but equal to
the empty string, which JavaScript `||` treats the same as absent — the
outbound request's model is the hardcoded per-provider default
(`"claude-sonnet-4-20250514"` for Anthropic, `"gpt-4o"` for OpenAI); if a
nonempty model is supplied, that model is used instead. -/
theorem default_model_when_absent_or_empty
    (p key : String) (messages : List Message) (sp : Option String)
    (m : String) :
    (anthropicRequest { ai := { provider := p, apiKey := key, model := none } }
        messages sp).model = DEFAULT_ANTHROPIC_MODEL ∧
    (openAIRequest { ai := { provider := p, apiKey := key, model := none } }
        messages sp).model = DEFAULT_OPENAI_MODEL ∧
    (anthropicRequest { ai := { provider := p, apiKey := key, model := some "" } }
        messages sp).model = DEFAULT_ANTHROPIC_MODEL ∧
    (openAIRequest { ai := { provider := p, apiKey := key, model := some "" } }
        messages sp).model = DEFAULT_OPENAI_MODEL ∧
    (m ≠ "" →
      (anthropicRequest { ai := { provider := p, apiKey := key, model := some m } }
          messages sp).model = m ∧
      (openAIRequest { ai := { provider := p, apiKey := key, model := some m } }
          messages sp).model = m) := by
  refine ⟨rfl, rfl, rfl, rfl, fun hm => ⟨?_, ?_⟩⟩
  · unfold anthropicRequest jsOrString
    simp only [if_neg hm]
  · unfold openAIRequest jsOrString
    simp only [if_neg hm]

/-- Witness for the amended C7 at a concrete nonempty supplied model. -/
theorem default_model_when_absent_or_empty_witness :
    (anthropicRequest
        { ai := { provider := "anthropic", apiKey := "k", model := some "m1" } }
        [] none).model = "m1" ∧
    (openAIRequest
        { ai := { provider := "openai", apiKey := "k", model := some "m1" } }
        [] none).model = "m1" :=
  (default_model_when_absent_or_empty "anthropic" "k" [] none "m1").2.2.2.2
    (by decide) |>.imp (fun h => h) (fun _ =>
      (default_model_when_absent_or_empty "openai" "k" [] none "m1").2.2.2.2
        (by decide) |>.2)

/-- C10: on both provider paths a present-but-empty `systemPrompt` behaves
exactly like an absent one — the fixed default system prompt is sent — and
the system prompt actually sent is never the empty string. -/
theorem empty_system_prompt_falls_back_to_default
    (config : SecureConfig) (messages : List Message) :
    (anthropicRequest config messages (some "")).system =
      DEFAULT_SYSTEM_PROMPT ∧
    anthropicRequest config messages (some "") =
      anthropicRequest config messages none ∧
    (openAIRequest config messages (some "")).messages.head? =
      some ("system", DEFAULT_SYSTEM_PROMPT) ∧
    openAIRequest config messages (some "") =
      openAIRequest config messages none ∧
    (∀ sp : Option String,
      (anthropicRequest config messages sp).system ≠ "") := by
  refine ⟨rfl, rfl, rfl, rfl, fun sp => ?_⟩
  have hdef : DEFAULT_SYSTEM_PROMPT ≠ "" := by decide
  match sp with
  | none => exact hdef
  | some s =>
      show jsOrString (some s) DEFAULT_SYSTEM_PROMPT ≠ ""
      by_cases hs : s = ""
      · simp only [jsOrString, if_pos hs]
        exact hdef
      · simp only [jsOrString, if_neg hs]
        exact hs

/-- Specification-side description of the Anthropic text normalization:
the texts of the text-typed blocks, in order, non-text blocks excluded. -/
def textBlockTexts (blocks : List ContentBlock) : List String :=
  blocks.filterMap (fun b =>
    match b with
    | ContentBlock.text t => some t
    | _ => none)

/-- The code's filter-then-map over content blocks computes exactly the
texts of the text-typed blocks. -/
lemma filter_text_map_eq_textBlockTexts (blocks : List ContentBlock) :
    (blocks.filter blockIsText).map blockText = textBlockTexts blocks := by
  induction blocks with
  | nil => rfl
  | cons b rest ih =>
      cases b <;>
        simp [textBlockTexts, blockIsText, blockText, List.filter_cons,
          List.filterMap_cons] <;>
        simpa [textBlockTexts] using ih

/-- C2: on both provider paths, when the provider call fails with error
`e`, `chat` writes exactly one error-level audit event — its error string
begins with the provider name and ends with `e`'s message (or the
stringified value when `e` is not an `Error` object) — and then re-throws
the original error `e` unchanged: no wrapping, no retry, no fallback. -/
theorem provider_failure_one_audit_and_rethrow (e : JsError) :
    ((anthropicChat (Except.error e)).1 =
        [{ error := "Anthropic API error: " ++ jsErrorText e }] ∧
      (∃ rest, "Anthropic API error: " ++ jsErrorText e =
        "Anthropic" ++ rest) ∧
      (∃ pre, "Anthropic API error: " ++ jsErrorText e =
        pre ++ jsErrorText e) ∧
      (anthropicChat (Except.error e)).2 = Except.error e) ∧
    ((openAIChat (Except.error e)).1 =
        [{ error := "OpenAI API error: " ++ jsErrorText e }] ∧
      (∃ rest, "OpenAI API error: " ++ jsErrorText e = "OpenAI" ++ rest) ∧
      (∃ pre, "OpenAI API error: " ++ jsErrorText e =
        pre ++ jsErrorText e) ∧
      (openAIChat (Except.error e)).2 = Except.error e) := by
  have hA : ("Anthropic API error: " : String) =
      "Anthropic" ++ " API error: " := by decide
  have hO : ("OpenAI API error: " : String) = "OpenAI" ++ " API error: " := by
    decide
  exact ⟨⟨rfl,
      ⟨" API error: " ++ jsErrorText e, by rw [hA, String.append_assoc]⟩,
      ⟨"Anthropic API error: ", rfl⟩, rfl⟩,
    ⟨rfl,
      ⟨" API error: " ++ jsErrorText e, by rw [hO, String.append_assoc]⟩,
      ⟨"OpenAI API error: ", rfl⟩, rfl⟩⟩

/-- C3: on the Anthropic path the returned text is the newline-join of the
texts of the text-typed content blocks, in order, non-text blocks dropped;
in particular text blocks `["Hello", "World"]` around one non-text block
yield `"Hello\nWorld"`. -/
theorem anthropic_text_joins_text_blocks :
    (∀ r : AnthropicResponse,
      (anthropicChat (Except.ok r)).2 = Except.ok
        { text := String.intercalate "\n" (textBlockTexts r.content)
          usage := some
            { inputTokens := r.usage.input_tokens
              outputTokens := r.usage.output_tokens } }) ∧
    (anthropicChat (Except.ok
        { content := [ContentBlock.text "Hello",
            ContentBlock.toolUse "toolu1" "search" "query",
            ContentBlock.text "World"]
          usage := { input_tokens := 3, output_tokens := 5 } })).2 =
      Except.ok
        { text := "Hello\nWorld"
          usage := some { inputTokens := 3, outputTokens := 5 } } := by
  refine ⟨fun r => ?_, rfl⟩
  simp only [anthropicChat, filter_text_map_eq_textBlockTexts]

/-- `jsOrString` with an empty-string fallback agrees with `Option.getD`:
`x || ""` and "x if present else empty" coincide because the only value
`||` treats differently is the empty string itself, which maps to the
empty string either way. -/
lemma jsOrString_empty_fallback (o : Option String) :
    jsOrString o "" = o.getD "" := by
  match o with
  | none => rfl
  | some s =>
      by_cases hs : s = ""
      · simp [jsOrString, hs]
      · simp [jsOrString, hs]

/-- Specification-side description: the first completion choice's message
content, when the choice, its message, and its content are all present. -/
def firstChoiceContent (r : OpenAIResponse) : Option String :=
  (r.choices.head?.bind OpenAIChoice.message).bind OpenAIChatMessage.content

/-- C4: on the OpenAI path the returned text is the first choice's message
content, or the empty string when the choice, message, or content is
absent; usage is copied from the response exactly when the response
carries a usage object and is `undefined` otherwise (never zeroed). The
concrete instances show both the usage-absent stub of the spec and a
usage-present response. -/
theorem openai_text_and_usage_normalization :
    (∀ r : OpenAIResponse,
      (openAIChat (Except.ok r)).2 = Except.ok
        { text := (firstChoiceContent r).getD ""
          usage := r.usage.map (fun u =>
            { inputTokens := u.prompt_tokens
              outputTokens := u.completion_tokens }) }) ∧
    (openAIChat (Except.ok
        { choices := [{ message := some { content := some "Hi" } }]
          usage := none })).2 =
      Except.ok { text := "Hi", usage := none } ∧
    (openAIChat (Except.ok
        { choices := [{ message := some { content := some "Hi" } }]
          usage := some { prompt_tokens := 7, completion_tokens := 9 } })).2 =
      Except.ok
        { text := "Hi"
          usage := some { inputTokens := 7, outputTokens := 9 } } := by
  refine ⟨fun r => ?_, rfl, rfl⟩
  cases hu : r.usage with
  | none =>
      simp [openAIChat, firstChoiceContent, jsOrString_empty_fallback, hu]
  | some u =>
      simp [openAIChat, firstChoiceContent, jsOrString_empty_fallback, hu]

end Moltbot
